import Mathlib

set_option linter.unusedVariables false

/-
Verification model of the photo watermarking tool in `src/watermark.py`.

The Python program is a straight-line pipeline: EXIF timestamp extraction
(`get_exif_datetime`), a color-string parser (`parse_color`), a watermark
compositor (`add_watermark_to_image`), and a directory processor
(`process_images_in_directory`).  Each Python function is shallowly embedded
below as a total, executable Lean function.  Python exceptions are made
explicit: functions that catch all exceptions and return `None` become
`Option`-valued functions, and the uncaught exception that `Image.save` can
raise inside the directory loop becomes an `Except` error.  Python machine
integers are unbounded, so `Nat`/`Int` model them exactly.
-/

/- ## Python character and integer-literal helpers -/

/-- Character classes are expressed through `Char.toNat` code points:
digits are 48..57, lowercase hex letters 97..102, uppercase 65..70. -/
def digitVal (c : Char) : Option Nat :=
  if 48 ≤ c.toNat ∧ c.toNat ≤ 57 then some (c.toNat - 48) else none

/-- Value of a hexadecimal digit character, as accepted by Python `int(s, 16)`. -/
def hexDigitVal (c : Char) : Option Nat :=
  if 48 ≤ c.toNat ∧ c.toNat ≤ 57 then some (c.toNat - 48)
  else if 97 ≤ c.toNat ∧ c.toNat ≤ 102 then some (c.toNat - 87)
  else if 65 ≤ c.toNat ∧ c.toNat ≤ 70 then some (c.toNat - 55)
  else none

/-- Whitespace characters ignored by Python `int()` and removed by `str.strip()`
(space, tab, linefeed, carriage return, vertical tab, form feed). -/
def pyIsSpace (c : Char) : Bool :=
  c.toNat = 32 ∨ c.toNat = 9 ∨ c.toNat = 10 ∨ c.toNat = 13 ∨ c.toNat = 11 ∨ c.toNat = 12

/-- Model of `str.strip()`: drop leading and trailing whitespace. -/
def stripWs (cs : List Char) : List Char :=
  ((cs.dropWhile pyIsSpace).reverse.dropWhile pyIsSpace).reverse

/-- Parse a nonempty all-decimal-digit character list as a `Nat`
(accumulator form). -/
def parseDecDigitsAux : List Char → Nat → Option Nat
  | [], acc => some acc
  | c :: cs, acc =>
    match digitVal c with
    | some v => parseDecDigitsAux cs (10 * acc + v)
    | none => none

/-- Digit run of a Python decimal integer literal: nonempty, decimal digits only. -/
def parseDecDigits (cs : List Char) : Option Nat :=
  if cs.isEmpty then none else parseDecDigitsAux cs 0

/-- Parse a nonempty all-hex-digit character list as a `Nat` (accumulator form). -/
def parseHexDigitsAux : List Char → Nat → Option Nat
  | [], acc => some acc
  | c :: cs, acc =>
    match hexDigitVal c with
    | some v => parseHexDigitsAux cs (16 * acc + v)
    | none => none

/-- Digit run of a Python base-16 integer literal: nonempty, hex digits only. -/
def parseHexDigits (cs : List Char) : Option Nat :=
  if cs.isEmpty then none else parseHexDigitsAux cs 0

/-- Magnitude part of `int(s, 16)`: an optional `0x`/`0X` marker followed by
hex digits. -/
def parseHexAfterSign (t : List Char) : Option Nat :=
  if t.take 2 = ['0', 'x'] ∨ t.take 2 = ['0', 'X'] then parseHexDigits (t.drop 2)
  else parseHexDigits t

/-- Model of Python `int(s)` on a character list: surrounding whitespace is
ignored, an optional single sign is allowed, then decimal digits.  (Digit-group
underscores of Python numeric literals are not modelled.)  Since `int()` itself
ignores surrounding whitespace, this also models `int(s.strip())`. -/
def pyIntDec (cs0 : List Char) : Option Int :=
  let t := stripWs cs0
  if t.head? = some '+' then (parseDecDigits t.tail).map (fun n => (n : Int))
  else if t.head? = some '-' then (parseDecDigits t.tail).map (fun n => -(n : Int))
  else (parseDecDigits t).map (fun n => (n : Int))

/-- Model of Python `int(s, 16)` on a character list: surrounding whitespace is
ignored, an optional single sign, an optional `0x`/`0X` marker, then hex digits. -/
def pyIntHex (cs0 : List Char) : Option Int :=
  let t := stripWs cs0
  if t.head? = some '+' then (parseHexAfterSign t.tail).map (fun n => (n : Int))
  else if t.head? = some '-' then (parseHexAfterSign t.tail).map (fun n => -(n : Int))
  else (parseHexAfterSign t).map (fun n => (n : Int))

/-- Model of Python `str.split(sep)` for a one-character separator. -/
def pySplit (sep : Char) : List Char → List (List Char)
  | [] => [[]]
  | c :: rest =>
    if c = sep then [] :: pySplit sep rest
    else
      match pySplit sep rest with
      | [] => [[c]]
      | p :: ps => (c :: p) :: ps

/- ## parse_color (watermark.py lines 121-140) -/

/-- RGBA channels produced by `parse_color`: Python integers, unbounded. -/
abbrev PyColor := Int × Int × Int × Int

/-- Errors that `parse_color` can raise: `argparse.ArgumentTypeError` from the
explicit `raise` at the end, or `ValueError` escaping from `int(...)`. -/
inductive ColorError where
  | invalidFormat
  | valueError
  deriving DecidableEq

/-- Two-character slice `color_string[i:i+2]` used by the hex branch. -/
def hexPair (t : List Char) (i : Nat) : List Char := (t.drop i).take 2

/-- Hex branch of `parse_color` (lines 125-131), applied after the `#` was
stripped: length 6 gives RGB with alpha 255, length 8 gives RGBA, any other
length falls through to the format error. -/
def parseHexTail (t : List Char) : Except ColorError PyColor :=
  if t.length = 6 then
    match pyIntHex (hexPair t 0), pyIntHex (hexPair t 2), pyIntHex (hexPair t 4) with
    | some r, some g, some b => .ok (r, g, b, 255)
    | _, _, _ => .error .valueError
  else if t.length = 8 then
    match pyIntHex (hexPair t 0), pyIntHex (hexPair t 2), pyIntHex (hexPair t 4),
          pyIntHex (hexPair t 6) with
    | some r, some g, some b, some a => .ok (r, g, b, a)
    | _, _, _, _ => .error .valueError
  else .error .invalidFormat

/-- Evaluation of `[int(x.strip()) for x in color_string.split(',')]`: the
first component that `int` rejects raises `ValueError`. -/
def pyMapInt : List (List Char) → Option (List Int)
  | [] => some []
  | p :: ps =>
    match pyIntDec p with
    | some v => (pyMapInt ps).map (fun vs => v :: vs)
    | none => none

/-- Comma branch of `parse_color` (lines 132-138): entered when the string
contains exactly 2 or 3 commas; 3 parsed components give RGB with alpha 255,
4 give RGBA. -/
def parseCommaTail (cs : List Char) : Except ColorError PyColor :=
  if cs.count ',' = 2 ∨ cs.count ',' = 3 then
    match pyMapInt (pySplit ',' cs) with
    | some vs =>
      match vs with
      | [r, g, b] => .ok (r, g, b, 255)
      | [r, g, b, a] => .ok (r, g, b, a)
      | _ => .error .invalidFormat
    | none => .error .valueError
  else .error .invalidFormat

/-- Branch selection of `parse_color` (lines 121-140) on the character list:
hex branch when the string starts with `#`, otherwise the comma branch (which
itself raises the format error unless the string has 2 or 3 commas). -/
def parseColorList (cs : List Char) : Except ColorError PyColor :=
  match cs with
  | '#' :: t => parseHexTail t
  | _ => parseCommaTail cs

/-- Model of `parse_color` (lines 121-140). -/
def parse_color (s : String) : Except ColorError PyColor :=
  parseColorList s.toList

/- ## get_exif_datetime (watermark.py lines 7-25) -/

/-- Calendar structure used by `datetime`'s range validation. -/
def pyIsLeapYear (y : Nat) : Bool :=
  y % 4 = 0 ∧ (¬ y % 100 = 0 ∨ y % 400 = 0)

/-- Days in a month, as validated by the `datetime.datetime` constructor. -/
def daysInMonth (y m : Nat) : Nat :=
  if m = 2 then (if pyIsLeapYear y then 29 else 28)
  else if m = 4 ∨ m = 6 ∨ m = 9 ∨ m = 11 then 30
  else 31

/-- Broken-down timestamp produced by
`datetime.strptime(value, "%Y:%m:%d %H:%M:%S")`. -/
structure PyDateTime where
  year : Nat
  month : Nat
  day : Nat
  hour : Nat
  minute : Nat
  second : Nat
  deriving DecidableEq

/-- Exactly `k` decimal digits (the `%Y` directive matches four). -/
def takeExactDigits : Nat → Nat → List Char → Option (Nat × List Char)
  | 0, acc, cs => some (acc, cs)
  | k + 1, acc, c :: cs =>
    match digitVal c with
    | some v => takeExactDigits k (10 * acc + v) cs
    | none => none
  | _ + 1, _, [] => none

/-- One or two decimal digits, longest match first (the `%m`, `%d`, `%H`,
`%M`, `%S` directives); since every following character in the format is a
non-digit literal, maximal munch coincides with the regex alternation
CPython's strptime uses. -/
def takeOneTwoDigits : List Char → Option (Nat × List Char)
  | c1 :: c2 :: cs =>
    match digitVal c1, digitVal c2 with
    | some v1, some v2 => some (10 * v1 + v2, cs)
    | some v1, none => some (v1, c2 :: cs)
    | none, _ => none
  | [c1] => (digitVal c1).map (fun v => (v, ([] : List Char)))
  | [] => none

/-- Literal separator character of the strptime format. -/
def expectChar (c : Char) : List Char → Option (List Char)
  | d :: cs => if d = c then some cs else none
  | [] => none

/-- Model of `datetime.datetime.strptime(s, "%Y:%m:%d %H:%M:%S")`: a full
match of the format followed by the `datetime` constructor's range checks
(year at least `MINYEAR = 1`, month 1-12, day within the month, hour at most
23, minute and second at most 59 — CPython's `%H`/`%M`/`%S` patterns and the
constructor together enforce exactly these bounds).  Any failure raises
`ValueError`, modelled as `none`. -/
def pyStrptimeDT (s : String) : Option PyDateTime := do
  let (y, cs) ← takeExactDigits 4 0 s.toList
  let cs ← expectChar ':' cs
  let (mo, cs) ← takeOneTwoDigits cs
  let cs ← expectChar ':' cs
  let (d, cs) ← takeOneTwoDigits cs
  let cs ← expectChar ' ' cs
  let (h, cs) ← takeOneTwoDigits cs
  let cs ← expectChar ':' cs
  let (mi, cs) ← takeOneTwoDigits cs
  let cs ← expectChar ':' cs
  let (sec, cs) ← takeOneTwoDigits cs
  if cs = [] ∧ 1 ≤ y ∧ 1 ≤ mo ∧ mo ≤ 12 ∧ 1 ≤ d ∧ d ≤ daysInMonth y mo ∧
      h ≤ 23 ∧ mi ≤ 59 ∧ sec ≤ 59 then
    some ⟨y, mo, d, h, mi, sec⟩
  else none

/-- Left pad with zeros, as the `%Y`/`%m`/`%d` strftime directives do. -/
def zfill (w : Nat) (s : String) : String :=
  String.mk (List.replicate (w - s.length) '0') ++ s

/-- Model of `dt.strftime("%Y-%m-%d")`. -/
def pyStrftimeDate (dt : PyDateTime) : String :=
  zfill 4 (toString dt.year) ++ "-" ++ zfill 2 (toString dt.month) ++ "-" ++
    zfill 2 (toString dt.day)

/-- Outcome of `Image.open(path)` followed by `image._getexif()`, the only
inputs `get_exif_datetime` consumes: the open can raise, `_getexif` can raise
(e.g. `AttributeError` on formats without EXIF support), or it yields either
`None` or a tag-to-value mapping.  Tag ids are modelled after resolution
through `PIL.ExifTags.TAGS`, and values as strings in stored iteration order. -/
inductive ExifSource where
  | openFails
  | getexifFails
  | exifData (d : Option (List (String × String)))
  deriving DecidableEq

/-- Capture-time tag names recognized at line 18. -/
def recognizedDateTags : List String := ["DateTime", "DateTimeOriginal", "DateTimeDigitized"]

/-- Loop of lines 16-21: the first entry whose tag is recognized decides the
result; a `ValueError` from `strptime` on that entry is caught by the
surrounding `except`, returning `None` without examining later entries. -/
def exifDateLoop : List (String × String) → Option String
  | [] => none
  | (tag, v) :: rest =>
    if tag ∈ recognizedDateTags then (pyStrptimeDT v).map pyStrftimeDate
    else exifDateLoop rest

/-- Model of `get_exif_datetime` (lines 7-25): every exception path is caught
and becomes `None`; otherwise the EXIF entries are scanned in order. -/
def get_exif_datetime (src : ExifSource) : Option String :=
  match src with
  | .openFails => none
  | .getexifFails => none
  | .exifData none => none
  | .exifData (some entries) => exifDateLoop entries

/-- First EXIF entry carrying a recognized capture-time tag (specification
vocabulary for stating theorems about the loop). -/
def exifFindFirst (entries : List (String × String)) : Option (String × String) :=
  entries.find? (fun e => decide (e.1 ∈ recognizedDateTags))

/- ## add_watermark_to_image (watermark.py lines 27-82) -/

/-- PIL image modes occurring in the pipeline: every image is converted to
`RGBA` on open, and converted back to `RGB` for JPEG-destined files. -/
inductive PyImageMode where
  | RGB
  | RGBA
  deriving DecidableEq

/-- Environment of one file in the input directory.  The fields abstract
exactly the external effects the Python code consumes: the filename, what
`Image.open`/`_getexif` yield, the image dimensions, the text bounding box
measured for the loaded font (environment-dependent), whether the
open/draw/composite block of `add_watermark_to_image` succeeds, and whether
`Image.save` succeeds. -/
structure FileSpec where
  name : String
  exif : ExifSource
  imgW : Nat
  imgH : Nat
  textW : Int
  textH : Int
  openDrawOk : Bool
  saveOk : Bool
  deriving DecidableEq

/-- Result of a successful composition: dimensions, final mode, the draw
origin chosen for the text, and the drawn text and color. -/
structure WatermarkedImage where
  width : Nat
  height : Nat
  mode : PyImageMode
  textOrigin : Int × Int
  text : String
  color : PyColor
  deriving DecidableEq

/-- Lowercased character list of a filename, modelling `filename.lower()`
(ASCII case folding; the extensions compared against are ASCII). -/
def lowerName (s : String) : List Char := s.toList.map Char.toLower

/-- Check `image_path.lower().endswith(('.jpg', '.jpeg'))` of line 76. -/
def isJpegName (s : String) : Bool :=
  ".jpg".toList.isSuffixOf (lowerName s) ∨ ".jpeg".toList.isSuffixOf (lowerName s)

/-- Dictionary of lines 55-65 together with the `positions.get(position,
positions['bottom-right'])` lookup of line 67.  Python `//` is floor
division, i.e. `Int.fdiv`. -/
def positionsGet (position : String) (width height text_width text_height : Int) :
    Int × Int :=
  if position = "top-left" then (10, 10)
  else if position = "top-center" then ((width - text_width).fdiv 2, 10)
  else if position = "top-right" then (width - text_width - 10, 10)
  else if position = "middle-left" then (10, (height - text_height).fdiv 2)
  else if position = "center" then
    ((width - text_width).fdiv 2, (height - text_height).fdiv 2)
  else if position = "middle-right" then
    (width - text_width - 10, (height - text_height).fdiv 2)
  else if position = "bottom-left" then (10, height - text_height - 10)
  else if position = "bottom-center" then
    ((width - text_width).fdiv 2, height - text_height - 10)
  else if position = "bottom-right" then
    (width - text_width - 10, height - text_height - 10)
  else (width - text_width - 10, height - text_height - 10)

/-- Model of `add_watermark_to_image` (lines 27-82).  The whole body sits in a
`try` whose `except` returns `None`; `openDrawOk` abstracts whether any of the
open/draw/composite operations raises.  On success the image keeps its
dimensions, the text is drawn at the origin computed by `positionsGet`, and
the composited `RGBA` result is flattened to `RGB` exactly when the lowercased
path ends in `.jpg` or `.jpeg`. -/
def add_watermark_to_image (f : FileSpec) (watermark_text : String)
    (font_size : Nat) (font_color : PyColor) (position : String) :
    Option WatermarkedImage :=
  if f.openDrawOk then
    some
      { width := f.imgW
        height := f.imgH
        mode := if isJpegName f.name then .RGB else .RGBA
        textOrigin := positionsGet position (f.imgW : Int) (f.imgH : Int) f.textW f.textH
        text := watermark_text
        color := font_color }
  else none

/- ## process_images_in_directory (watermark.py lines 84-119) -/

/-- Arguments threaded from the command line into the directory loop. -/
structure RunConfig where
  font_size : Nat
  font_color : PyColor
  position : String
  deriving DecidableEq

/-- Mutable state of the loop: the counter of line 96 and the list of files
written to the output directory. -/
structure RunState where
  processedCount : Nat
  savedFiles : List String
  deriving DecidableEq

/-- Result of a completed run: the final loop state and the Python return
value of `process_images_in_directory`.  The function body contains no
`return` statement, so the return value is always `None`. -/
structure RunOutcome where
  finalState : RunState
  returnValue : Option Nat
  deriving DecidableEq

/-- The only uncaught exception inside the loop: `watermarked_image.save`
(line 115) sits outside every `try`, so its failure propagates. -/
inductive RunError where
  | saveFailed (filename : String)
  deriving DecidableEq

/-- Supported extensions tuple of line 89. -/
def supportedFormats : List String := [".jpg", ".jpeg", ".png", ".tiff", ".bmp"]

/-- Check `filename.lower().endswith(supported_formats)` of line 98. -/
def isSupportedName (s : String) : Bool :=
  supportedFormats.any (fun e => e.toList.isSuffixOf (lowerName s))

/-- One iteration of the loop of lines 97-117: unsupported names are ignored;
a falsy (`None` or empty) watermark text skips the file; a `None` from
`add_watermark_to_image` skips the file; otherwise the image is saved, which
either increments the counter or raises. -/
def processOneFile (cfg : RunConfig) (st : RunState) (f : FileSpec) :
    Except RunError RunState :=
  if isSupportedName f.name then
    match get_exif_datetime f.exif with
    | none => .ok st
    | some txt =>
      if txt = "" then .ok st
      else
        match add_watermark_to_image f txt cfg.font_size cfg.font_color cfg.position with
        | none => .ok st
        | some _img =>
          if f.saveOk then
            .ok ⟨st.processedCount + 1, st.savedFiles ++ [f.name]⟩
          else .error (.saveFailed f.name)
  else .ok st

/-- Model of `process_images_in_directory` (lines 84-119): fold the per-file
step over the directory listing; an uncaught save exception aborts the whole
run, otherwise the final count is printed and `None` is returned. -/
def process_images_in_directory (files : List FileSpec) (cfg : RunConfig) :
    Except RunError RunOutcome :=
  (files.foldlM (processOneFile cfg) ⟨0, []⟩).map (fun st => ⟨st, none⟩)

/- ## Specification-side vocabulary -/

/-- Specification predicate (`spec.md` section 4.2) on the character list: a
valid hex color string is a `#` followed by 6 or 8 characters whose
two-character slices `int(-, 16)` accepts.  Used to compare `parse_color`
against the spec's words. -/
def specValidHexList (cs : List Char) : Bool :=
  match cs with
  | '#' :: t =>
    (t.length = 6 ∧ (pyIntHex (hexPair t 0)).isSome ∧ (pyIntHex (hexPair t 2)).isSome ∧
      (pyIntHex (hexPair t 4)).isSome) ∨
    (t.length = 8 ∧ (pyIntHex (hexPair t 0)).isSome ∧ (pyIntHex (hexPair t 2)).isSome ∧
      (pyIntHex (hexPair t 4)).isSome ∧ (pyIntHex (hexPair t 6)).isSome)
  | _ => false

/-- String-level form of `specValidHexList`. -/
def specValidHexForm (s : String) : Bool := specValidHexList s.toList

/-- Specification predicate (`spec.md` section 4.2): a valid comma-separated
color string, i.e. exactly 3 or 4 components each of which `int(-)` accepts. -/
def specValidCommaList (cs : List Char) : Bool :=
  (cs.count ',' = 2 ∨ cs.count ',' = 3) ∧
    (pySplit ',' cs).all (fun p => (pyIntDec p).isSome)

/-- String-level form of `specValidCommaList`. -/
def specValidCommaForm (s : String) : Bool := specValidCommaList s.toList

/-- Specification predicate on the character list: a hex color input made of
plain hexadecimal digits (the `#RRGGBB` / `#RRGGBBAA` shapes of the spec,
without the sign or whitespace liberties Python's `int` tolerates). -/
def specPlainHexList (cs : List Char) : Bool :=
  match cs with
  | '#' :: t => (t.length = 6 ∨ t.length = 8) ∧ t.all (fun c => (hexDigitVal c).isSome)
  | _ => false

/-- String-level form of `specPlainHexList`. -/
def specPlainHexInput (s : String) : Bool := specPlainHexList s.toList

/-- Python truthiness of the `watermark_text` value tested at line 103:
`None` and the empty string are falsy. -/
def truthyText (o : Option String) : Bool :=
  match o with
  | none => false
  | some t => ¬ t = ""

/-- Number of directory entries with a supported extension (the `N` of the
spec's count property). -/
def countSupported (files : List FileSpec) : Nat :=
  (files.filter (fun f => isSupportedName f.name)).length

/-- Number of supported entries whose capture date is unreadable (the `M` of
the spec's count property). -/
def countNoDate (files : List FileSpec) : Nat :=
  (files.filter (fun f =>
    isSupportedName f.name && ! truthyText (get_exif_datetime f.exif))).length

/-- Number of supported entries whose capture date is readable. -/
def countWithDate (files : List FileSpec) : Nat :=
  (files.filter (fun f =>
    isSupportedName f.name && truthyText (get_exif_datetime f.exif))).length

/- ## Helper lemmas -/

theorem hexDigitVal_ranges (c : Char) (v : Nat) (h : hexDigitVal c = some v) :
    (48 ≤ c.toNat ∧ c.toNat ≤ 57) ∨ (97 ≤ c.toNat ∧ c.toNat ≤ 102) ∨
      (65 ≤ c.toNat ∧ c.toNat ≤ 70) := by
  unfold hexDigitVal at h
  split at h
  · exact Or.inl (by assumption)
  · split at h
    · exact Or.inr (Or.inl (by assumption))
    · split at h
      · exact Or.inr (Or.inr (by assumption))
      · exact absurd h (by simp)

theorem hexDigitVal_lt_16 (c : Char) (v : Nat) (h : hexDigitVal c = some v) : v < 16 := by
  unfold hexDigitVal at h
  split at h
  · injection h with h'; omega
  · split at h
    · injection h with h'; omega
    · split at h
      · injection h with h'; omega
      · exact absurd h (by simp)

theorem hexDigitVal_not_space (c : Char) (v : Nat) (h : hexDigitVal c = some v) :
    pyIsSpace c = false := by
  have hr := hexDigitVal_ranges c v h
  simp only [pyIsSpace, decide_eq_false_iff_not]
  omega

theorem hexDigitVal_ne_chars (c : Char) (v : Nat) (h : hexDigitVal c = some v) :
    c ≠ '+' ∧ c ≠ '-' ∧ c ≠ 'x' ∧ c ≠ 'X' := by
  have hr := hexDigitVal_ranges c v h
  refine ⟨?_, ?_, ?_, ?_⟩ <;>
    { intro he
      rw [he] at hr
      revert hr
      decide }

theorem dropWhile_append_last (p : Char → Bool) (xs : List Char) (c : Char)
    (hc : p c = false) : (xs ++ [c]).dropWhile p = xs.dropWhile p ++ [c] := by
  induction xs with
  | nil => simp [List.dropWhile, hc]
  | cons a l ih =>
    by_cases ha : p a
    · simp [List.dropWhile_cons, ha, ih]
    · simp [List.dropWhile_cons, ha]

theorem stripWs_cons (c : Char) (l : List Char) (hc : pyIsSpace c = false) :
    stripWs (c :: l) = c :: (l.reverse.dropWhile pyIsSpace).reverse := by
  unfold stripWs
  rw [List.dropWhile_cons, hc]
  simp only [Bool.false_eq_true, if_false, List.reverse_cons]
  rw [dropWhile_append_last pyIsSpace l.reverse c hc]
  simp

theorem pyIntHex_pair (c1 c2 : Char) (v1 v2 : Nat)
    (h1 : hexDigitVal c1 = some v1) (h2 : hexDigitVal c2 = some v2) :
    pyIntHex [c1, c2] = some ((16 * v1 + v2 : Nat) : Int) := by
  obtain ⟨hp1, hm1, hx1, hX1⟩ := hexDigitVal_ne_chars c1 v1 h1
  obtain ⟨hp2, hm2, hx2, hX2⟩ := hexDigitVal_ne_chars c2 v2 h2
  have s1 := hexDigitVal_not_space c1 v1 h1
  have s2 := hexDigitVal_not_space c2 v2 h2
  have hstrip : stripWs [c1, c2] = [c1, c2] := by
    rw [show ([c1, c2] : List Char) = c1 :: [c2] from rfl, stripWs_cons c1 [c2] s1]
    simp [List.dropWhile, s2]
  unfold pyIntHex
  simp only [hstrip]
  rw [if_neg (by simp [hp1]), if_neg (by simp [hm1])]
  unfold parseHexAfterSign
  rw [if_neg ?hpre]
  case hpre =>
    intro hor
    rcases hor with h | h <;> { simp at h; exact absurd h.2 (by assumption) }
  simp [parseHexDigits, parseHexDigitsAux, h1, h2]

theorem pyIntDec_hash_cons (q : List Char) : pyIntDec ('#' :: q) = none := by
  have hs : pyIsSpace '#' = false := by decide
  unfold pyIntDec
  rw [stripWs_cons '#' q hs]
  rw [if_neg (by simp), if_neg (by simp)]
  simp [parseDecDigits, parseDecDigitsAux, digitVal]

theorem pySplit_ne_nil (sep : Char) (cs : List Char) : pySplit sep cs ≠ [] := by
  cases cs with
  | nil => simp [pySplit]
  | cons c rest =>
    unfold pySplit
    by_cases hc : c = sep
    · simp [hc]
    · simp only [hc, if_false]
      split <;> simp

theorem pySplit_length (sep : Char) (cs : List Char) :
    (pySplit sep cs).length = cs.count sep + 1 := by
  induction cs with
  | nil => simp [pySplit]
  | cons c rest ih =>
    unfold pySplit
    by_cases hc : c = sep
    · subst hc
      simp [List.count_cons, ih]
    · simp only [hc, if_false]
      rcases hn : pySplit sep rest with _ | ⟨p, ps⟩
      · exact absurd hn (pySplit_ne_nil sep rest)
      · rw [hn] at ih
        simp only [List.length_cons] at ih ⊢
        rw [List.count_cons]
        simp [hc, ih]

theorem pySplit_cons_ne (sep c : Char) (rest : List Char) (hc : c ≠ sep) :
    ∃ p ps, pySplit sep rest = p :: ps ∧ pySplit sep (c :: rest) = (c :: p) :: ps := by
  rcases hn : pySplit sep rest with _ | ⟨p, ps⟩
  · exact absurd hn (pySplit_ne_nil sep rest)
  · refine ⟨p, ps, rfl, ?_⟩
    unfold pySplit
    simp only [hc, if_false, hn]

theorem pyMapInt_isSome (ps : List (List Char)) :
    (pyMapInt ps).isSome = ps.all (fun p => (pyIntDec p).isSome) := by
  induction ps with
  | nil => simp [pyMapInt]
  | cons p rest ih =>
    unfold pyMapInt
    cases hd : pyIntDec p with
    | none => simp [hd]
    | some v =>
      cases hm : pyMapInt rest with
      | none => rw [hm] at ih; simp [hd, ← ih, hm]
      | some vs => rw [hm] at ih; simp [hd, ← ih, hm]

theorem parseColorList_cons_ne (c : Char) (t : List Char) (hc : c ≠ '#') :
    parseColorList (c :: t) = parseCommaTail (c :: t) := by
  unfold parseColorList
  split
  · rename_i heq
    exact absurd (List.head_eq_of_cons_eq heq.symm).symm hc
  · rfl

theorem exifDateLoop_eq_find (entries : List (String × String)) :
    exifDateLoop entries =
      (exifFindFirst entries).bind (fun e => (pyStrptimeDT e.2).map pyStrftimeDate) := by
  induction entries with
  | nil => rfl
  | cons e rest ih =>
    obtain ⟨tag, v⟩ := e
    unfold exifDateLoop exifFindFirst
    by_cases ht : tag ∈ recognizedDateTags
    · simp [List.find?_cons, ht]
    · simp only [ht, if_false, List.find?_cons, decide_eq_true_eq]
      simp only [exifFindFirst] at ih
      simp [ht, ih]

theorem countSupported_split (files : List FileSpec) :
    countSupported files = countWithDate files + countNoDate files := by
  induction files with
  | nil => rfl
  | cons f rest ih =>
    unfold countSupported countWithDate countNoDate at ih ⊢
    by_cases hs : isSupportedName f.name
    · by_cases ht : truthyText (get_exif_datetime f.exif)
      · simp [List.filter_cons, hs, ht, ih]; omega
      · simp only [Bool.not_eq_true] at ht
        simp [List.filter_cons, hs, ht, ih]; omega
    · simp only [Bool.not_eq_true] at hs
      simp [List.filter_cons, hs, ih]

theorem processOneFile_skip_unsupported (cfg : RunConfig) (st : RunState) (f : FileSpec)
    (hs : isSupportedName f.name = false) : processOneFile cfg st f = .ok st := by
  unfold processOneFile
  simp [hs]

theorem processOneFile_skip_nodate (cfg : RunConfig) (st : RunState) (f : FileSpec)
    (ht : truthyText (get_exif_datetime f.exif) = false) :
    processOneFile cfg st f = .ok st := by
  unfold processOneFile
  by_cases hs : isSupportedName f.name
  · cases hd : get_exif_datetime f.exif with
    | none => simp [hs, hd]
    | some txt =>
      unfold truthyText at ht
      rw [hd] at ht
      simp only [decide_eq_false_iff_not, Decidable.not_not] at ht
      simp [hs, hd, ht]
  · simp [hs]

theorem processOneFile_saves (cfg : RunConfig) (st : RunState) (f : FileSpec)
    (hs : isSupportedName f.name = true)
    (ht : truthyText (get_exif_datetime f.exif) = true)
    (ho : f.openDrawOk = true) (hv : f.saveOk = true) :
    processOneFile cfg st f = .ok ⟨st.processedCount + 1, st.savedFiles ++ [f.name]⟩ := by
  unfold processOneFile
  cases hd : get_exif_datetime f.exif with
  | none => rw [hd] at ht; simp [truthyText] at ht
  | some txt =>
    unfold truthyText at ht
    rw [hd] at ht
    simp only [decide_eq_true_eq] at ht
    unfold add_watermark_to_image
    simp [hs, hd, ht, ho, hv]

theorem foldRun_count (cfg : RunConfig) (files : List FileSpec) :
    ∀ st : RunState,
      (∀ f ∈ files, isSupportedName f.name = true →
        truthyText (get_exif_datetime f.exif) = true →
        f.openDrawOk = true ∧ f.saveOk = true) →
      ∃ st' : RunState,
        List.foldlM (processOneFile cfg) st files = .ok st' ∧
          st'.processedCount = st.processedCount + countWithDate files := by
  induction files with
  | nil =>
    intro st _
    exact ⟨st, rfl, by simp [countWithDate]⟩
  | cons f rest ih =>
    intro st H
    have Hrest : ∀ g ∈ rest, isSupportedName g.name = true →
        truthyText (get_exif_datetime g.exif) = true →
        g.openDrawOk = true ∧ g.saveOk = true :=
      fun g hg => H g (List.mem_cons_of_mem f hg)
    by_cases hs : isSupportedName f.name
    · by_cases ht : truthyText (get_exif_datetime f.exif)
      · obtain ⟨ho, hv⟩ := H f (List.mem_cons_self f rest) hs ht
        obtain ⟨st', hfold, hcount⟩ :=
          ih ⟨st.processedCount + 1, st.savedFiles ++ [f.name]⟩ Hrest
        refine ⟨st', ?_, ?_⟩
        · rw [List.foldlM_cons, processOneFile_saves cfg st f hs ht ho hv]
          simpa using hfold
        · rw [hcount]
          unfold countWithDate
          simp [List.filter_cons, hs, ht]
          omega
      · simp only [Bool.not_eq_true] at ht
        obtain ⟨st', hfold, hcount⟩ := ih st Hrest
        refine ⟨st', ?_, ?_⟩
        · rw [List.foldlM_cons, processOneFile_skip_nodate cfg st f ht]
          simpa using hfold
        · rw [hcount]
          unfold countWithDate
          simp [List.filter_cons, hs, ht]
    · simp only [Bool.not_eq_true] at hs
      obtain ⟨st', hfold, hcount⟩ := ih st Hrest
      refine ⟨st', ?_, ?_⟩
      · rw [List.foldlM_cons, processOneFile_skip_unsupported cfg st f hs]
        simpa using hfold
      · rw [hcount]
        unfold countWithDate
        simp [List.filter_cons, hs]

theorem parseHexTail_six (c1 c2 c3 c4 c5 c6 : Char) (v1 v2 v3 v4 v5 v6 : Nat)
    (h1 : hexDigitVal c1 = some v1) (h2 : hexDigitVal c2 = some v2)
    (h3 : hexDigitVal c3 = some v3) (h4 : hexDigitVal c4 = some v4)
    (h5 : hexDigitVal c5 = some v5) (h6 : hexDigitVal c6 = some v6) :
    parseHexTail [c1, c2, c3, c4, c5, c6] =
      .ok (((16 * v1 + v2 : Nat) : Int), ((16 * v3 + v4 : Nat) : Int),
        ((16 * v5 + v6 : Nat) : Int), 255) := by
  unfold parseHexTail
  rw [if_pos (by rfl)]
  rw [show hexPair [c1, c2, c3, c4, c5, c6] 0 = [c1, c2] from rfl,
    show hexPair [c1, c2, c3, c4, c5, c6] 2 = [c3, c4] from rfl,
    show hexPair [c1, c2, c3, c4, c5, c6] 4 = [c5, c6] from rfl,
    pyIntHex_pair c1 c2 v1 v2 h1 h2, pyIntHex_pair c3 c4 v3 v4 h3 h4,
    pyIntHex_pair c5 c6 v5 v6 h5 h6]

theorem parseHexTail_eight (c1 c2 c3 c4 c5 c6 c7 c8 : Char)
    (v1 v2 v3 v4 v5 v6 v7 v8 : Nat)
    (h1 : hexDigitVal c1 = some v1) (h2 : hexDigitVal c2 = some v2)
    (h3 : hexDigitVal c3 = some v3) (h4 : hexDigitVal c4 = some v4)
    (h5 : hexDigitVal c5 = some v5) (h6 : hexDigitVal c6 = some v6)
    (h7 : hexDigitVal c7 = some v7) (h8 : hexDigitVal c8 = some v8) :
    parseHexTail [c1, c2, c3, c4, c5, c6, c7, c8] =
      .ok (((16 * v1 + v2 : Nat) : Int), ((16 * v3 + v4 : Nat) : Int),
        ((16 * v5 + v6 : Nat) : Int), ((16 * v7 + v8 : Nat) : Int)) := by
  unfold parseHexTail
  rw [if_neg (by simp), if_pos (by rfl)]
  rw [show hexPair [c1, c2, c3, c4, c5, c6, c7, c8] 0 = [c1, c2] from rfl,
    show hexPair [c1, c2, c3, c4, c5, c6, c7, c8] 2 = [c3, c4] from rfl,
    show hexPair [c1, c2, c3, c4, c5, c6, c7, c8] 4 = [c5, c6] from rfl,
    show hexPair [c1, c2, c3, c4, c5, c6, c7, c8] 6 = [c7, c8] from rfl,
    pyIntHex_pair c1 c2 v1 v2 h1 h2, pyIntHex_pair c3 c4 v3 v4 h3 h4,
    pyIntHex_pair c5 c6 v5 v6 h5 h6, pyIntHex_pair c7 c8 v7 v8 h7 h8]

theorem parseCommaTail_three (cs p1 p2 p3 : List Char) (v1 v2 v3 : Int)
    (hsplit : pySplit ',' cs = [p1, p2, p3])
    (h1 : pyIntDec p1 = some v1) (h2 : pyIntDec p2 = some v2)
    (h3 : pyIntDec p3 = some v3) :
    parseCommaTail cs = .ok (v1, v2, v3, 255) := by
  have hcount : cs.count ',' = 2 := by
    have hl := pySplit_length ',' cs
    rw [hsplit] at hl
    simp at hl
    omega
  unfold parseCommaTail
  rw [if_pos (Or.inl hcount), hsplit]
  simp [pyMapInt, h1, h2, h3]

theorem parseCommaTail_four (cs p1 p2 p3 p4 : List Char) (v1 v2 v3 v4 : Int)
    (hsplit : pySplit ',' cs = [p1, p2, p3, p4])
    (h1 : pyIntDec p1 = some v1) (h2 : pyIntDec p2 = some v2)
    (h3 : pyIntDec p3 = some v3) (h4 : pyIntDec p4 = some v4) :
    parseCommaTail cs = .ok (v1, v2, v3, v4) := by
  have hcount : cs.count ',' = 3 := by
    have hl := pySplit_length ',' cs
    rw [hsplit] at hl
    simp at hl
    omega
  unfold parseCommaTail
  rw [if_pos (Or.inr hcount), hsplit]
  simp [pyMapInt, h1, h2, h3, h4]

theorem processOneFile_skip_composite (cfg : RunConfig) (st : RunState) (f : FileSpec)
    (ho : f.openDrawOk = false) : processOneFile cfg st f = .ok st := by
  unfold processOneFile
  by_cases hs : isSupportedName f.name
  · cases hd : get_exif_datetime f.exif with
    | none => simp [hs, hd]
    | some txt =>
      by_cases he : txt = ""
      · simp [hs, hd, he]
      · unfold add_watermark_to_image
        simp [hs, hd, he, ho]
  · simp [hs]

theorem processOneFile_save_error (cfg : RunConfig) (st : RunState) (f : FileSpec)
    (hs : isSupportedName f.name = true)
    (ht : truthyText (get_exif_datetime f.exif) = true)
    (ho : f.openDrawOk = true) (hv : f.saveOk = false) :
    processOneFile cfg st f = .error (.saveFailed f.name) := by
  unfold processOneFile
  cases hd : get_exif_datetime f.exif with
  | none => rw [hd] at ht; simp [truthyText] at ht
  | some txt =>
    unfold truthyText at ht
    rw [hd] at ht
    simp only [decide_eq_true_eq] at ht
    unfold add_watermark_to_image
    simp [hs, hd, ht, ho, hv]

/- ## Claim theorems -/

/-- C1 counterexample: on a directory holding one supported image with a
readable capture date that composites and saves successfully (N = 1, M = 0),
`process_images_in_directory` saves the file and tallies a count of 1, yet its
Python return value is `None` — it returns no count at all, refuting the
claim that it returns N − M. -/
theorem process_directory_returns_none_counterexample :
    process_images_in_directory
      [⟨"a.jpg", .exifData (some [("DateTimeOriginal", "2024:03:15 10:20:30")]),
        200, 100, 50, 20, true, true⟩]
      ⟨36, (255, 255, 255, 128), "bottom-right"⟩ =
      .ok ⟨⟨1, ["a.jpg"]⟩, none⟩ ∧
    ∀ n : Nat, (none : Option Nat) ≠ some n := by
  exact ⟨rfl, fun n h => Option.noConfusion h⟩

/-- C1 amended: when every supported image with a readable capture date
composites and saves successfully, the run completes, tallies (and prints)
exactly N − M processed files, but the function's return value is `None`,
not the count. -/
theorem process_directory_count_amended (files : List FileSpec) (cfg : RunConfig)
    (H : ∀ f ∈ files, isSupportedName f.name = true →
      truthyText (get_exif_datetime f.exif) = true →
      f.openDrawOk = true ∧ f.saveOk = true) :
    ∃ st : RunState,
      process_images_in_directory files cfg = .ok ⟨st, none⟩ ∧
        st.processedCount = countSupported files - countNoDate files := by
  obtain ⟨st', hfold, hcount⟩ := foldRun_count cfg files ⟨0, []⟩ H
  refine ⟨st', ?_, ?_⟩
  · unfold process_images_in_directory
    rw [hfold]
    rfl
  · rw [hcount, countSupported_split files]
    simp

/-- C1 witness: the amended count theorem applied to a concrete directory of
two supported images, one of which has no EXIF data (N = 2, M = 1). -/
theorem process_directory_count_witness :
    ∃ st : RunState,
      process_images_in_directory
        [⟨"a.jpg", .exifData (some [("DateTimeOriginal", "2024:03:15 10:20:30")]),
          200, 100, 50, 20, true, true⟩,
         ⟨"b.png", .exifData none, 320, 240, 40, 16, true, true⟩]
        ⟨36, (255, 255, 255, 128), "bottom-right"⟩ = .ok ⟨st, none⟩ ∧
        st.processedCount =
          countSupported
            [⟨"a.jpg", .exifData (some [("DateTimeOriginal", "2024:03:15 10:20:30")]),
              200, 100, 50, 20, true, true⟩,
             ⟨"b.png", .exifData none, 320, 240, 40, 16, true, true⟩] -
          countNoDate
            [⟨"a.jpg", .exifData (some [("DateTimeOriginal", "2024:03:15 10:20:30")]),
              200, 100, 50, 20, true, true⟩,
             ⟨"b.png", .exifData none, 320, 240, 40, 16, true, true⟩] :=
  process_directory_count_amended
    [⟨"a.jpg", .exifData (some [("DateTimeOriginal", "2024:03:15 10:20:30")]),
      200, 100, 50, 20, true, true⟩,
     ⟨"b.png", .exifData none, 320, 240, 40, 16, true, true⟩]
    ⟨36, (255, 255, 255, 128), "bottom-right"⟩ (by decide)

/-- C2 counterexample: in a directory of two good supported images where
saving the first one's output raises, the run aborts with the uncaught save
exception instead of skipping the file — the second image is never processed
and no count is produced. -/
theorem save_failure_aborts_counterexample :
    process_images_in_directory
      [⟨"a.jpg", .exifData (some [("DateTimeOriginal", "2024:03:15 10:20:30")]),
        200, 100, 50, 20, true, false⟩,
       ⟨"b.jpg", .exifData (some [("DateTimeOriginal", "2024:03:15 10:20:30")]),
        200, 100, 50, 20, true, true⟩]
      ⟨36, (255, 255, 255, 128), "bottom-right"⟩ =
      .error (.saveFailed "a.jpg") := rfl

/-- C2 amended: failures inside `add_watermark_to_image` (opening, drawing,
compositing) are recoverable per file — the file is skipped and the run
continues — but a failure raised by `watermarked_image.save` itself is not
caught and aborts the whole run. -/
theorem per_file_error_policy_amended :
    (∀ (cfg : RunConfig) (f : FileSpec) (rest : List FileSpec),
      isSupportedName f.name = true →
      truthyText (get_exif_datetime f.exif) = true →
      f.openDrawOk = false →
      process_images_in_directory (f :: rest) cfg =
        process_images_in_directory rest cfg) ∧
    (∀ (cfg : RunConfig) (f : FileSpec) (rest : List FileSpec),
      isSupportedName f.name = true →
      truthyText (get_exif_datetime f.exif) = true →
      f.openDrawOk = true → f.saveOk = false →
      process_images_in_directory (f :: rest) cfg =
        .error (.saveFailed f.name)) := by
  constructor
  · intro cfg f rest hs ht ho
    unfold process_images_in_directory
    rw [List.foldlM_cons, processOneFile_skip_composite cfg ⟨0, []⟩ f ho]
    rfl
  · intro cfg f rest hs ht ho hv
    unfold process_images_in_directory
    rw [List.foldlM_cons, processOneFile_save_error cfg ⟨0, []⟩ f hs ht ho hv]
    rfl

/-- C2 witness: the amended policy applied to concrete files — a compositing
failure on `c.png` leaves the rest of the run unchanged, and a save failure
on `a.jpg` aborts the run. -/
theorem per_file_error_policy_witness :
    process_images_in_directory
      [⟨"c.png", .exifData (some [("DateTimeOriginal", "2024:03:15 10:20:30")]),
        200, 100, 50, 20, false, true⟩]
      ⟨36, (255, 255, 255, 128), "bottom-right"⟩ =
      process_images_in_directory [] ⟨36, (255, 255, 255, 128), "bottom-right"⟩ ∧
    process_images_in_directory
      [⟨"a.jpg", .exifData (some [("DateTimeOriginal", "2024:03:15 10:20:30")]),
        200, 100, 50, 20, true, false⟩]
      ⟨36, (255, 255, 255, 128), "bottom-right"⟩ =
      .error (.saveFailed "a.jpg") :=
  ⟨per_file_error_policy_amended.1 ⟨36, (255, 255, 255, 128), "bottom-right"⟩
      ⟨"c.png", .exifData (some [("DateTimeOriginal", "2024:03:15 10:20:30")]),
        200, 100, 50, 20, false, true⟩ [] (by decide) (by decide) rfl,
    per_file_error_policy_amended.2 ⟨36, (255, 255, 255, 128), "bottom-right"⟩
      ⟨"a.jpg", .exifData (some [("DateTimeOriginal", "2024:03:15 10:20:30")]),
        200, 100, 50, 20, true, false⟩ [] (by decide) (by decide) rfl rfl⟩

/-- C3 counterexample: the comma form performs no range validation, so
`parse_color "300,0,0"` is accepted and returns a channel value of 300,
outside [0,255]. -/
theorem parse_color_range_counterexample :
    parse_color "300,0,0" = .ok (300, 0, 0, 255) ∧ ¬((300 : Int) ≤ 255) :=
  ⟨rfl, by decide⟩

/-- C3 amended: the [0,255] channel invariant holds for every hex input made
of plain hexadecimal digits (`#` plus 6 or 8 hex digits, covering both hex
forms with alpha defaulting to 255); the comma-separated form returns the
supplied integers unvalidated, so it can produce channels outside [0,255]. -/
theorem parse_color_range_amended (s : String) (r g b a : Int)
    (hplain : specPlainHexInput s = true)
    (hok : parse_color s = .ok (r, g, b, a)) :
    (0 ≤ r ∧ r ≤ 255) ∧ (0 ≤ g ∧ g ≤ 255) ∧ (0 ≤ b ∧ b ≤ 255) ∧
      (0 ≤ a ∧ a ≤ 255) := by
  unfold specPlainHexInput at hplain
  unfold parse_color at hok
  rcases hcs : s.toList with _ | ⟨c, t⟩
  · rw [hcs] at hplain
    simp [specPlainHexList] at hplain
  · rw [hcs] at hplain hok
    by_cases hc : c = '#'
    · subst hc
      simp only [specPlainHexList] at hplain
      simp only [Bool.and_eq_true, decide_eq_true_eq, List.all_eq_true] at hplain
      obtain ⟨hlen, hall⟩ := hplain
      rcases hlen with h6 | h8
      · rcases t with _ | ⟨c1, _ | ⟨c2, _ | ⟨c3, _ | ⟨c4, _ | ⟨c5, _ | ⟨c6, trest⟩⟩⟩⟩⟩⟩ <;>
          simp at h6
        subst h6
        obtain ⟨v1, hv1⟩ := Option.isSome_iff_exists.mp (hall c1 (by simp))
        obtain ⟨v2, hv2⟩ := Option.isSome_iff_exists.mp (hall c2 (by simp))
        obtain ⟨v3, hv3⟩ := Option.isSome_iff_exists.mp (hall c3 (by simp))
        obtain ⟨v4, hv4⟩ := Option.isSome_iff_exists.mp (hall c4 (by simp))
        obtain ⟨v5, hv5⟩ := Option.isSome_iff_exists.mp (hall c5 (by simp))
        obtain ⟨v6, hv6⟩ := Option.isSome_iff_exists.mp (hall c6 (by simp))
        rw [show parseColorList ('#' :: c1 :: c2 :: c3 :: c4 :: c5 :: c6 :: ([] : List Char)) =
            parseHexTail [c1, c2, c3, c4, c5, c6] from rfl,
          parseHexTail_six c1 c2 c3 c4 c5 c6 v1 v2 v3 v4 v5 v6 hv1 hv2 hv3 hv4 hv5 hv6] at hok
        have hb1 := hexDigitVal_lt_16 c1 v1 hv1
        have hb2 := hexDigitVal_lt_16 c2 v2 hv2
        have hb3 := hexDigitVal_lt_16 c3 v3 hv3
        have hb4 := hexDigitVal_lt_16 c4 v4 hv4
        have hb5 := hexDigitVal_lt_16 c5 v5 hv5
        have hb6 := hexDigitVal_lt_16 c6 v6 hv6
        simp only [Except.ok.injEq, Prod.mk.injEq] at hok
        obtain ⟨h1, h2, h3, h4⟩ := hok
        subst h1; subst h2; subst h3; subst h4
        refine ⟨⟨?_, ?_⟩, ⟨?_, ?_⟩, ⟨?_, ?_⟩, ⟨?_, ?_⟩⟩ <;> omega
      · rcases t with _ | ⟨c1, _ | ⟨c2, _ | ⟨c3, _ | ⟨c4, _ | ⟨c5, _ | ⟨c6, _ |
          ⟨c7, _ | ⟨c8, trest⟩⟩⟩⟩⟩⟩⟩⟩ <;> simp at h8
        subst h8
        obtain ⟨v1, hv1⟩ := Option.isSome_iff_exists.mp (hall c1 (by simp))
        obtain ⟨v2, hv2⟩ := Option.isSome_iff_exists.mp (hall c2 (by simp))
        obtain ⟨v3, hv3⟩ := Option.isSome_iff_exists.mp (hall c3 (by simp))
        obtain ⟨v4, hv4⟩ := Option.isSome_iff_exists.mp (hall c4 (by simp))
        obtain ⟨v5, hv5⟩ := Option.isSome_iff_exists.mp (hall c5 (by simp))
        obtain ⟨v6, hv6⟩ := Option.isSome_iff_exists.mp (hall c6 (by simp))
        obtain ⟨v7, hv7⟩ := Option.isSome_iff_exists.mp (hall c7 (by simp))
        obtain ⟨v8, hv8⟩ := Option.isSome_iff_exists.mp (hall c8 (by simp))
        rw [show parseColorList
            ('#' :: c1 :: c2 :: c3 :: c4 :: c5 :: c6 :: c7 :: c8 :: ([] : List Char)) =
            parseHexTail [c1, c2, c3, c4, c5, c6, c7, c8] from rfl,
          parseHexTail_eight c1 c2 c3 c4 c5 c6 c7 c8 v1 v2 v3 v4 v5 v6 v7 v8
            hv1 hv2 hv3 hv4 hv5 hv6 hv7 hv8] at hok
        have hb1 := hexDigitVal_lt_16 c1 v1 hv1
        have hb2 := hexDigitVal_lt_16 c2 v2 hv2
        have hb3 := hexDigitVal_lt_16 c3 v3 hv3
        have hb4 := hexDigitVal_lt_16 c4 v4 hv4
        have hb5 := hexDigitVal_lt_16 c5 v5 hv5
        have hb6 := hexDigitVal_lt_16 c6 v6 hv6
        have hb7 := hexDigitVal_lt_16 c7 v7 hv7
        have hb8 := hexDigitVal_lt_16 c8 v8 hv8
        simp only [Except.ok.injEq, Prod.mk.injEq] at hok
        obtain ⟨h1, h2, h3, h4⟩ := hok
        subst h1; subst h2; subst h3; subst h4
        refine ⟨⟨?_, ?_⟩, ⟨?_, ?_⟩, ⟨?_, ?_⟩, ⟨?_, ?_⟩⟩ <;> omega
    · unfold specPlainHexList at hplain
      split at hplain
      · rename_i heq
        exact absurd (List.head_eq_of_cons_eq heq.symm).symm hc
      · exact absurd hplain (by simp)

/-- C3 witness: the amended range invariant applied to the concrete plain-hex
input `#0aF0b1`, whose parsed channels are (10, 240, 177, 255). -/
theorem parse_color_range_witness :
    ((0 : Int) ≤ 10 ∧ (10 : Int) ≤ 255) ∧ ((0 : Int) ≤ 240 ∧ (240 : Int) ≤ 255) ∧
      ((0 : Int) ≤ 177 ∧ (177 : Int) ≤ 255) ∧ ((0 : Int) ≤ 255 ∧ (255 : Int) ≤ 255) :=
  parse_color_range_amended "#0aF0b1" 10 240 177 255 (by decide) rfl

/-- C4 (confirmed): for every valid hex string of length 6 or 8 after `#`,
`parse_color` returns the parsed hex byte values with alpha defaulting to 255
in the 6-digit form; for every comma-separated string of exactly 3 or 4
integer components in [0,255], it returns those components, with alpha
defaulting to 255 in the 3-component form. -/
theorem parse_color_valid_forms :
    (∀ (c1 c2 c3 c4 c5 c6 : Char) (v1 v2 v3 v4 v5 v6 : Nat),
      hexDigitVal c1 = some v1 → hexDigitVal c2 = some v2 →
      hexDigitVal c3 = some v3 → hexDigitVal c4 = some v4 →
      hexDigitVal c5 = some v5 → hexDigitVal c6 = some v6 →
      parse_color (String.mk ['#', c1, c2, c3, c4, c5, c6]) =
        .ok (((16 * v1 + v2 : Nat) : Int), ((16 * v3 + v4 : Nat) : Int),
          ((16 * v5 + v6 : Nat) : Int), 255)) ∧
    (∀ (c1 c2 c3 c4 c5 c6 c7 c8 : Char) (v1 v2 v3 v4 v5 v6 v7 v8 : Nat),
      hexDigitVal c1 = some v1 → hexDigitVal c2 = some v2 →
      hexDigitVal c3 = some v3 → hexDigitVal c4 = some v4 →
      hexDigitVal c5 = some v5 → hexDigitVal c6 = some v6 →
      hexDigitVal c7 = some v7 → hexDigitVal c8 = some v8 →
      parse_color (String.mk ['#', c1, c2, c3, c4, c5, c6, c7, c8]) =
        .ok (((16 * v1 + v2 : Nat) : Int), ((16 * v3 + v4 : Nat) : Int),
          ((16 * v5 + v6 : Nat) : Int), ((16 * v7 + v8 : Nat) : Int))) ∧
    (∀ (s : String) (p1 p2 p3 : List Char) (v1 v2 v3 : Int),
      pySplit ',' s.toList = [p1, p2, p3] →
      pyIntDec p1 = some v1 → pyIntDec p2 = some v2 → pyIntDec p3 = some v3 →
      0 ≤ v1 ∧ v1 ≤ 255 → 0 ≤ v2 ∧ v2 ≤ 255 → 0 ≤ v3 ∧ v3 ≤ 255 →
      parse_color s = .ok (v1, v2, v3, 255)) ∧
    (∀ (s : String) (p1 p2 p3 p4 : List Char) (v1 v2 v3 v4 : Int),
      pySplit ',' s.toList = [p1, p2, p3, p4] →
      pyIntDec p1 = some v1 → pyIntDec p2 = some v2 →
      pyIntDec p3 = some v3 → pyIntDec p4 = some v4 →
      0 ≤ v1 ∧ v1 ≤ 255 → 0 ≤ v2 ∧ v2 ≤ 255 → 0 ≤ v3 ∧ v3 ≤ 255 →
      0 ≤ v4 ∧ v4 ≤ 255 →
      parse_color s = .ok (v1, v2, v3, v4)) := by
  refine ⟨?_, ?_, ?_, ?_⟩
  · intro c1 c2 c3 c4 c5 c6 v1 v2 v3 v4 v5 v6 h1 h2 h3 h4 h5 h6
    exact parseHexTail_six c1 c2 c3 c4 c5 c6 v1 v2 v3 v4 v5 v6 h1 h2 h3 h4 h5 h6
  · intro c1 c2 c3 c4 c5 c6 c7 c8 v1 v2 v3 v4 v5 v6 v7 v8 h1 h2 h3 h4 h5 h6 h7 h8
    exact parseHexTail_eight c1 c2 c3 c4 c5 c6 c7 c8 v1 v2 v3 v4 v5 v6 v7 v8
      h1 h2 h3 h4 h5 h6 h7 h8
  · intro s p1 p2 p3 v1 v2 v3 hsplit h1 h2 h3 hr1 hr2 hr3
    unfold parse_color
    rcases hcs : s.toList with _ | ⟨c, t⟩
    · rw [hcs] at hsplit
      simp [pySplit] at hsplit
    · rw [hcs] at hsplit
      by_cases hc : c = '#'
      · subst hc
        obtain ⟨p, ps, hrest, hcons⟩ := pySplit_cons_ne ',' '#' t (by decide)
        rw [hcons] at hsplit
        injection hsplit with ha hb
        rw [← ha, pyIntDec_hash_cons p] at h1
        cases h1
      · rw [parseColorList_cons_ne c t hc]
        exact parseCommaTail_three (c :: t) p1 p2 p3 v1 v2 v3 hsplit h1 h2 h3
  · intro s p1 p2 p3 p4 v1 v2 v3 v4 hsplit h1 h2 h3 h4 hr1 hr2 hr3 hr4
    unfold parse_color
    rcases hcs : s.toList with _ | ⟨c, t⟩
    · rw [hcs] at hsplit
      simp [pySplit] at hsplit
    · rw [hcs] at hsplit
      by_cases hc : c = '#'
      · subst hc
        obtain ⟨p, ps, hrest, hcons⟩ := pySplit_cons_ne ',' '#' t (by decide)
        rw [hcons] at hsplit
        injection hsplit with ha hb
        rw [← ha, pyIntDec_hash_cons p] at h1
        cases h1
      · rw [parseColorList_cons_ne c t hc]
        exact parseCommaTail_four (c :: t) p1 p2 p3 p4 v1 v2 v3 v4 hsplit h1 h2 h3 h4

/-- C4 witness: the valid-forms theorem applied to the concrete inputs
`#12ab5C` (hex, 6 digits) and `10, 20,30` (comma form with 3 components). -/
theorem parse_color_valid_forms_witness :
    parse_color (String.mk ['#', '1', '2', 'a', 'b', '5', 'C']) =
      .ok (((16 * 1 + 2 : Nat) : Int), ((16 * 10 + 11 : Nat) : Int),
        ((16 * 5 + 12 : Nat) : Int), 255) ∧
    parse_color "10, 20,30" = .ok (10, 20, 30, 255) :=
  ⟨parse_color_valid_forms.1 '1' '2' 'a' 'b' '5' 'C' 1 2 10 11 5 12
      rfl rfl rfl rfl rfl rfl,
    parse_color_valid_forms.2.2.1 "10, 20,30"
      "10".toList " 20".toList "30".toList 10 20 30
      (by decide) (by decide) (by decide) (by decide)
      (by decide) (by decide) (by decide)⟩

theorem parseHexTail_error_six (t : List Char) (h6 : t.length = 6)
    (hno : ¬((pyIntHex (hexPair t 0)).isSome = true ∧
      (pyIntHex (hexPair t 2)).isSome = true ∧
      (pyIntHex (hexPair t 4)).isSome = true)) :
    parseHexTail t = .error .valueError := by
  unfold parseHexTail
  rw [if_pos h6]
  rcases o0 : pyIntHex (hexPair t 0) with _ | r0 <;>
    rcases o1 : pyIntHex (hexPair t 2) with _ | r1 <;>
      rcases o2 : pyIntHex (hexPair t 4) with _ | r2 <;>
        simp_all

theorem parseHexTail_error_eight (t : List Char) (h8 : t.length = 8)
    (hno : ¬((pyIntHex (hexPair t 0)).isSome = true ∧
      (pyIntHex (hexPair t 2)).isSome = true ∧
      (pyIntHex (hexPair t 4)).isSome = true ∧
      (pyIntHex (hexPair t 6)).isSome = true)) :
    parseHexTail t = .error .valueError := by
  have hne : ¬ t.length = 6 := by omega
  unfold parseHexTail
  rw [if_neg hne, if_pos h8]
  rcases o0 : pyIntHex (hexPair t 0) with _ | r0 <;>
    rcases o1 : pyIntHex (hexPair t 2) with _ | r1 <;>
      rcases o2 : pyIntHex (hexPair t 4) with _ | r2 <;>
        rcases o3 : pyIntHex (hexPair t 6) with _ | r3 <;>
          simp_all

/-- C5 (confirmed): every input that is neither a valid hex form nor a valid
comma form fails — either with the `ArgumentTypeError` raised at line 140 or
with a `ValueError` escaping from `int(...)`, both of which argparse surfaces
as a format error before any file is processed.  In particular `bogus`,
`#12` and `1,2` fail with the format error, and a non-numeric component in an
otherwise well-shaped string (`1,a,3`) fails with the `ValueError`. -/
theorem parse_color_invalid_fails :
    (∀ s : String, specValidHexForm s = false → specValidCommaForm s = false →
      ∃ e, parse_color s = .error e) ∧
    parse_color "bogus" = .error .invalidFormat ∧
    parse_color "#12" = .error .invalidFormat ∧
    parse_color "1,2" = .error .invalidFormat ∧
    parse_color "1,a,3" = .error .valueError := by
  refine ⟨?_, rfl, rfl, rfl, rfl⟩
  intro s hhex hcomma
  unfold specValidHexForm at hhex
  unfold specValidCommaForm at hcomma
  unfold parse_color
  rcases hcs : s.toList with _ | ⟨c, t⟩
  · exact ⟨.invalidFormat, rfl⟩
  · rw [hcs] at hhex hcomma
    by_cases hc : c = '#'
    · subst hc
      simp only [specValidHexList, decide_eq_false_iff_not, not_or] at hhex
      obtain ⟨hno6, hno8⟩ := hhex
      show ∃ e, parseHexTail t = .error e
      by_cases h6 : t.length = 6
      · refine ⟨.valueError, parseHexTail_error_six t h6 ?_⟩
        intro hall
        exact hno6 ⟨h6, hall.1, hall.2.1, hall.2.2⟩
      · by_cases h8 : t.length = 8
        · refine ⟨.valueError, parseHexTail_error_eight t h8 ?_⟩
          intro hall
          exact hno8 ⟨h8, hall.1, hall.2.1, hall.2.2.1, hall.2.2.2⟩
        · exact ⟨.invalidFormat, by unfold parseHexTail; rw [if_neg h6, if_neg h8]⟩
    · rw [parseColorList_cons_ne c t hc]
      simp only [specValidCommaList, decide_eq_false_iff_not] at hcomma
      unfold parseCommaTail
      by_cases hcount : (c :: t).count ',' = 2 ∨ (c :: t).count ',' = 3
      · rw [if_pos hcount]
        have hall : (pySplit ',' (c :: t)).all (fun p => (pyIntDec p).isSome) = false := by
          rcases hb : (pySplit ',' (c :: t)).all (fun p => (pyIntDec p).isSome) with _ | _
          · rfl
          · exact absurd ⟨hcount, hb⟩ hcomma
        rcases hm : pyMapInt (pySplit ',' (c :: t)) with _ | vs
        · exact ⟨.valueError, rfl⟩
        · have hs := pyMapInt_isSome (pySplit ',' (c :: t))
          rw [hm, hall] at hs
          simp at hs
      · rw [if_neg hcount]
        exact ⟨.invalidFormat, rfl⟩

/-- C5 witness: the failure theorem applied to the concrete invalid input
`bogus`. -/
theorem parse_color_invalid_fails_witness :
    ∃ e, parse_color "bogus" = .error e :=
  parse_color_invalid_fails.1 "bogus" (by decide) (by decide)

/-- C6 counterexample: the metadata contains a recognized capture-time tag
with the well-formed value `2024:03:15 10:20:30`, yet `get_exif_datetime`
returns nothing, because the first recognized tag in iteration order
(`DateTime`) holds an unparseable value and the resulting `ValueError` makes
the whole function return `None`. -/
theorem extract_capture_date_counterexample :
    get_exif_datetime (.exifData (some [("DateTime", "yesterday"),
      ("DateTimeOriginal", "2024:03:15 10:20:30")])) = none ∧
    ("DateTimeOriginal", "2024:03:15 10:20:30") ∈
      [(("DateTime" : String), ("yesterday" : String)),
        ("DateTimeOriginal", "2024:03:15 10:20:30")] ∧
    "DateTimeOriginal" ∈ recognizedDateTags ∧
    pyStrptimeDT "2024:03:15 10:20:30" = some ⟨2024, 3, 15, 10, 20, 30⟩ :=
  ⟨rfl, by decide, by decide, rfl⟩

/-- C6 amended: whenever the first recognized capture-time entry in metadata
iteration order holds a value in `YYYY:MM:DD HH:MM:SS` form,
`extract_capture_date` returns only the date portion reformatted as
`YYYY-MM-DD`; in particular an embedded `2024:03:15 10:20:30` yields
`2024-03-15`. -/
theorem extract_capture_date_amended :
    (∀ (entries : List (String × String)) (tag v : String) (dt : PyDateTime),
      exifFindFirst entries = some (tag, v) →
      pyStrptimeDT v = some dt →
      get_exif_datetime (.exifData (some entries)) = some (pyStrftimeDate dt)) ∧
    get_exif_datetime
        (.exifData (some [("DateTimeOriginal", "2024:03:15 10:20:30")])) =
      some "2024-03-15" := by
  constructor
  · intro entries tag v dt hfind hparse
    show exifDateLoop entries = _
    rw [exifDateLoop_eq_find, hfind]
    simp [hparse]
  · rfl

/-- C6 witness: the amended theorem applied to concrete metadata whose first
recognized entry is `DateTimeDigitized` with value `2023:12:01 23:59:59`. -/
theorem extract_capture_date_amended_witness :
    get_exif_datetime (.exifData (some [("Make", "Canon"),
      ("DateTimeDigitized", "2023:12:01 23:59:59")])) =
      some (pyStrftimeDate ⟨2023, 12, 1, 23, 59, 59⟩) :=
  extract_capture_date_amended.1
    [("Make", "Canon"), ("DateTimeDigitized", "2023:12:01 23:59:59")]
    "DateTimeDigitized" "2023:12:01 23:59:59" ⟨2023, 12, 1, 23, 59, 59⟩
    (by decide) (by decide)

/-- C7 (confirmed): `extract_capture_date` returns `None` — never a raised
exception — when the open fails, when `_getexif` fails, when there is no
metadata, when no recognized tag is present, and when the first recognized
tag's value is unparseable; and a metadata failure never aborts the directory
run: the file is skipped and processing of the remaining files is unchanged. -/
theorem extract_capture_date_none_on_failure :
    (get_exif_datetime .openFails = none) ∧
    (get_exif_datetime .getexifFails = none) ∧
    (get_exif_datetime (.exifData none) = none) ∧
    (∀ entries : List (String × String),
      (∀ e ∈ entries, e.1 ∉ recognizedDateTags) →
      get_exif_datetime (.exifData (some entries)) = none) ∧
    (∀ (entries : List (String × String)) (tag v : String),
      exifFindFirst entries = some (tag, v) → pyStrptimeDT v = none →
      get_exif_datetime (.exifData (some entries)) = none) ∧
    (∀ (cfg : RunConfig) (f : FileSpec) (rest : List FileSpec),
      get_exif_datetime f.exif = none →
      process_images_in_directory (f :: rest) cfg =
        process_images_in_directory rest cfg) := by
  refine ⟨rfl, rfl, rfl, ?_, ?_, ?_⟩
  · intro entries h
    show exifDateLoop entries = none
    induction entries with
    | nil => rfl
    | cons e rest ih =>
      obtain ⟨tag, v⟩ := e
      unfold exifDateLoop
      rw [if_neg (h (tag, v) (by simp))]
      exact ih (fun x hx => h x (List.mem_cons_of_mem _ hx))
  · intro entries tag v hfind hparse
    show exifDateLoop entries = none
    rw [exifDateLoop_eq_find, hfind]
    simp [hparse]
  · intro cfg f rest hnone
    unfold process_images_in_directory
    rw [List.foldlM_cons]
    have hstep : processOneFile cfg ⟨0, []⟩ f = .ok ⟨0, []⟩ := by
      unfold processOneFile
      by_cases hs : isSupportedName f.name
      · simp [hs, hnone]
      · simp [hs]
    rw [hstep]
    rfl

/-- C7 witness: the failure theorem applied to concrete metadata carrying no
recognized capture-time tag. -/
theorem extract_capture_date_none_witness :
    get_exif_datetime (.exifData (some [("Make", "Nikon"), ("Model", "Z6")])) = none :=
  extract_capture_date_none_on_failure.2.2.2.1
    [("Make", "Nikon"), ("Model", "Z6")] (by decide)

/-- C10 (confirmed): the EXIF scan acts on the first entry in stored
iteration order whose tag is `DateTime`, `DateTimeOriginal` or
`DateTimeDigitized` — the result is fully determined by that first entry —
and if its value fails to parse the function returns nothing even when a
later equivalent tag holds a valid timestamp, so `DateTimeOriginal` gets no
preference. -/
theorem exif_first_recognized_tag_decides :
    (∀ entries : List (String × String),
      get_exif_datetime (.exifData (some entries)) =
        (exifFindFirst entries).bind
          (fun e => (pyStrptimeDT e.2).map pyStrftimeDate)) ∧
    get_exif_datetime (.exifData (some [("DateTimeDigitized", "2024/03/15 10:20:30"),
      ("DateTimeOriginal", "2024:03:15 10:20:30")])) = none :=
  ⟨fun entries => exifDateLoop_eq_find entries, rfl⟩

/-- C10 witness: the characterization applied to concrete metadata where an
unrecognized tag precedes a recognized one. -/
theorem exif_first_recognized_tag_witness :
    get_exif_datetime (.exifData (some [("Software", "v1"),
      ("DateTime", "2022:01/02 03:04:05")])) =
      (exifFindFirst [("Software", "v1"), ("DateTime", "2022:01/02 03:04:05")]).bind
        (fun e => (pyStrptimeDT e.2).map pyStrftimeDate) :=
  exif_first_recognized_tag_decides.1 [("Software", "v1"), ("DateTime", "2022:01/02 03:04:05")]

/-- C8 (confirmed): the draw origin uses a fixed 10-pixel margin from each
relevant edge, the `center` and `*-center` anchors center the text along the
corresponding axis with Python floor division, and every position string
outside the nine anchors falls back to the bottom-right origin. -/
theorem watermark_positions_spec :
    ∀ w h tw th : Int,
      positionsGet "top-left" w h tw th = (10, 10) ∧
      positionsGet "top-center" w h tw th = ((w - tw).fdiv 2, 10) ∧
      positionsGet "top-right" w h tw th = (w - tw - 10, 10) ∧
      positionsGet "middle-left" w h tw th = (10, (h - th).fdiv 2) ∧
      positionsGet "center" w h tw th = ((w - tw).fdiv 2, (h - th).fdiv 2) ∧
      positionsGet "middle-right" w h tw th = (w - tw - 10, (h - th).fdiv 2) ∧
      positionsGet "bottom-left" w h tw th = (10, h - th - 10) ∧
      positionsGet "bottom-center" w h tw th = ((w - tw).fdiv 2, h - th - 10) ∧
      positionsGet "bottom-right" w h tw th = (w - tw - 10, h - th - 10) ∧
      (∀ p : String,
        p ∉ ["top-left", "top-center", "top-right", "middle-left", "center",
          "middle-right", "bottom-left", "bottom-center", "bottom-right"] →
        positionsGet p w h tw th = (w - tw - 10, h - th - 10)) := by
  intro w h tw th
  refine ⟨rfl, rfl, rfl, rfl, rfl, rfl, rfl, rfl, rfl, ?_⟩
  intro p hp
  simp only [List.mem_cons, List.not_mem_nil, or_false, not_or] at hp
  obtain ⟨n1, n2, n3, n4, n5, n6, n7, n8, n9⟩ := hp
  unfold positionsGet
  rw [if_neg n1, if_neg n2, if_neg n3, if_neg n4, if_neg n5, if_neg n6,
    if_neg n7, if_neg n8, if_neg n9]

/-- C8 witness: the position theorem applied to a 200 by 100 image with a 50
by 20 text box and the unrecognized position string `oops`. -/
theorem watermark_positions_witness :
    positionsGet "oops" 200 100 50 20 = (200 - 50 - 10, 100 - 20 - 10) :=
  ((watermark_positions_spec 200 100 50 20).2.2.2.2.2.2.2.2.2) "oops" (by decide)

/-- C9 (confirmed): when the original extension marks a format without alpha
support (`.jpg`/`.jpeg`, case-insensitively), a successful
`add_watermark_to_image` flattens the `RGBA` composite back to an opaque
`RGB` image before returning. -/
theorem jpeg_flattened_to_rgb (f : FileSpec) (text : String) (font_size : Nat)
    (color : PyColor) (position : String)
    (ho : f.openDrawOk = true) (hj : isJpegName f.name = true) :
    ∃ img : WatermarkedImage,
      add_watermark_to_image f text font_size color position = some img ∧
        img.mode = .RGB := by
  unfold add_watermark_to_image
  simp only [ho, if_true]
  exact ⟨_, rfl, by simp [hj]⟩

/-- C9 witness: the flattening theorem applied to a concrete `.JPG` file. -/
theorem jpeg_flattened_to_rgb_witness :
    ∃ img : WatermarkedImage,
      add_watermark_to_image ⟨"x.JPG", .exifData none, 10, 10, 3, 2, true, true⟩
        "2024-03-15" 36 (0, 0, 0, 255) "center" = some img ∧
        img.mode = .RGB :=
  jpeg_flattened_to_rgb ⟨"x.JPG", .exifData none, 10, 10, 3, 2, true, true⟩
    "2024-03-15" 36 (0, 0, 0, 255) "center" rfl (by decide)
